import Mathlib

/-!
Verification development for the social-presence agent repository.

Shallow embedding of the event-ingestion and engagement components:

* `processTokenUpdate` embeds
  `packages/plugin-supabase/src/clients/tokenProcessingClient.ts`
  (`TokenProcessingClient.processTokenUpdate`): the in-flight key guard,
  the handler body abstracted by its outcome, and the `finally` release.
* `onMessage` embeds the `ws.onmessage` handler of
  `packages/plugin-supabase/src/clients/realtimeClient.ts`
  (`TokenUpdateClient.connect`); `heartbeatTick` embeds the `setInterval`
  callback installed by `setupHeartbeat`, and `onClose` the `ws.onclose`
  handler.

State that lives across awaits (the in-flight set, `isConnected`, timers)
is passed explicitly; the LLM and the network are parameters.
-/

namespace Spec2Proof

/-! ### Token processing client (tokenProcessingClient.ts) -/

/-- A Postgres row as carried by a realtime event (`change.record`).
Only the fields read by the embedded code are modelled; they are optional
because the source reads them with optional chaining (`record?.token_id`,
`record?.processing_stage`). -/
structure TokenRecord where
  id : Option String
  token_id : Option String
  processing_stage : Option String
  deriving DecidableEq

/-- The `TokenUpdate` payload (types.ts): `record`, `oldRecord`, `timestamp`.
`record` is optional because `processTokenUpdate` guards with `update?.record?`. -/
structure TokenUpdate where
  record : Option TokenRecord
  oldRecord : Option TokenRecord
  timestamp : String
  deriving DecidableEq

/-- Outcome of the handler body of `processTokenUpdate` between the guard
acquisition and the `finally`.  The body awaits room setup, LLM generation,
JSON parsing and memory creation; each can fail, and every failure lands in
the same `catch`.  `success` is the path that reaches the
`processingComplete` emit. -/
inductive HandlerOutcome
  | success
  | roomError
  | generateError
  | jsonParseError
  | memoryError
  deriving DecidableEq

/-- Observable result of one `processTokenUpdate` call. -/
inductive ProcessResult
  | invalidUpdate
  | alreadyProcessing
  | completedEvent (tokenId : String)
  | errorEvent (tokenId : String)
  deriving DecidableEq

/-- `TokenProcessingClient.processTokenUpdate` (tokenProcessingClient.ts lines
76-208).  The first component of the result is `this.processingTokens` after
the call; the second is what the call did.

Source shape: missing `update?.record?.token_id` returns early; a key already
in `processingTokens` returns early (line 88-91); otherwise the key is added
(line 93), the handler body runs (`try`), a failure is converted to a
`processingError` emit (`catch`), and the key is deleted in `finally`
(line 206).  The handler body is abstracted by `outcome`. -/
def processTokenUpdate (processingTokens : List String) (update : TokenUpdate)
    (outcome : HandlerOutcome) : List String × ProcessResult :=
  match update.record.bind TokenRecord.token_id with
  | none => (processingTokens, ProcessResult.invalidUpdate)
  | some tokenId =>
    if processingTokens.contains tokenId then
      (processingTokens, ProcessResult.alreadyProcessing)
    else
      ((tokenId :: processingTokens).erase tokenId,
        match outcome with
        | HandlerOutcome.success => ProcessResult.completedEvent tokenId
        | _ => ProcessResult.errorEvent tokenId)

/-- A concrete record used by witnesses. -/
def sampleRecord : TokenRecord :=
  { id := some "t1", token_id := some "t1", processing_stage := some "completed" }

/-- A concrete update used by witnesses. -/
def sampleUpdate : TokenUpdate :=
  { record := some sampleRecord, oldRecord := none, timestamp := "2024-12-01T00:00:00Z" }

/-! ### Realtime ingestion client (realtimeClient.ts) -/

/-- WebSocket ready states.  `wsOpen` stands for `WebSocket.OPEN` (`open` is a
Lean keyword). -/
inductive WsReady
  | wsConnecting
  | wsOpen
  | wsClosing
  | wsClosed
  deriving DecidableEq

/-- The parsed `data.payload?.data` of an inbound frame. -/
structure ChangeData where
  type : String
  table : String
  schema : String
  record : Option TokenRecord
  old_record : Option TokenRecord
  commit_timestamp : String
  deriving DecidableEq

/-- A parsed inbound frame: `{event, payload: {data}}`. -/
structure WsMessage where
  event : String
  payload_data : Option ChangeData
  deriving DecidableEq

/-- The `ws.onmessage` handler of `TokenUpdateClient.connect` (realtimeClient.ts
lines 69-111), restricted to its observable effect: `some u` means the handler
emitted `tokenUpdate` with payload `u`, `none` means nothing was forwarded.

Source shape: only `data.event === 'postgres_changes'` frames are examined;
empty `payload?.data` returns; the update is emitted iff
`change.type === 'UPDATE' && change.record?.processing_stage === 'completed'`. -/
def onMessage (msg : WsMessage) : Option TokenUpdate :=
  if msg.event = "postgres_changes" then
    match msg.payload_data with
    | none => none
    | some change =>
      match change.record with
      | none => none
      | some r =>
        if change.type = "UPDATE" ∧ r.processing_stage = some "completed" then
          some { record := some r, oldRecord := change.old_record,
                 timestamp := change.commit_timestamp }
        else none
  else none

/-- The heartbeat period passed to `setInterval` in `setupHeartbeat`
(realtimeClient.ts line 30). -/
def HEARTBEAT_INTERVAL_MS : Nat := 30000

/-- The flat reconnect delay used by `ws.onclose` (realtimeClient.ts line 119). -/
def RECONNECT_DELAY_MS : Nat := 5000

/-- The mutable state of `TokenUpdateClient`: `isConnected`, the socket's ready
state (`none` models `this.ws === null`), whether the heartbeat interval is
armed, and the delay of a pending reconnect timer if one is scheduled. -/
structure RtClientState where
  isConnected : Bool
  readyState : Option WsReady
  heartbeatActive : Bool
  reconnectDelayMs : Option Nat
  deriving DecidableEq

/-- One firing of the heartbeat `setInterval` callback (realtimeClient.ts lines
26-30).  The callback sends `{type: 'heartbeat'}` iff
`this.ws?.readyState === WebSocket.OPEN`; the second component records whether
a send was attempted.  The callback contains no error handling: a throwing
`ws.send` escapes the interval callback without touching any client state, so
the resulting state does not depend on `sendFails`. -/
def heartbeatTick (s : RtClientState) (_sendFails : Bool) : RtClientState × Bool :=
  if s.readyState = some WsReady.wsOpen then (s, true) else (s, false)

/-- The `ws.onclose` handler (realtimeClient.ts lines 113-122): clear the
heartbeat, drop `isConnected`, and schedule a reconnect after the flat
5000 ms delay. -/
def onClose (s : RtClientState) : RtClientState :=
  { s with isConnected := false, heartbeatActive := false,
           reconnectDelayMs := some RECONNECT_DELAY_MS }

/-- The client state right after `ws.onopen`: connected, socket open,
heartbeat armed, no reconnect pending. -/
def connectedState : RtClientState :=
  { isConnected := true, readyState := some WsReady.wsOpen,
    heartbeatActive := true, reconnectDelayMs := none }

/-- A concrete completed-update frame used by witnesses. -/
def sampleCompletedMsg : WsMessage :=
  { event := "postgres_changes",
    payload_data := some
      { type := "UPDATE", table := "new_tokens", schema := "public",
        record := some sampleRecord, old_record := none,
        commit_timestamp := "2024-12-01T00:00:00Z" } }

/-! ### Conversation thread building (client-twitter/src interactions, lines 470-598) -/

/-- A tweet, restricted to the fields the embedded code reads. -/
structure Tweet where
  id : String
  username : String
  name : String
  text : String
  inReplyToStatusId : Option String
  conversationId : String
  deriving DecidableEq

/-- The closure state of `buildConversationThread`: the `visited` id set, the
`thread` accumulator (`unshift` prepends, so the list is root-first), and a
count of `twitterClient.getTweet` calls made so far. -/
structure ThreadState where
  visited : List String
  thread : List Tweet
  fetches : Nat
  deriving DecidableEq

/-- The inner `processThread(currentTweet, depth)` of
`TwitterInteractionClient.buildConversationThread` (interactions file lines
477-584), with the memory side effects dropped and the parent fetch modelled
by `getTweet : String → Option Tweet` (`none` covers both a not-found parent
and a fetch error, which the source catches and stops on).

Source shape, in order: return when `depth >= maxReplies`; return when
`visited.has(currentTweet.id)`; otherwise add the id to `visited` and
`unshift` the tweet onto `thread`; then, if `inReplyToStatusId` is set, fetch
the parent and recurse at `depth + 1`.

`fuel` is a termination gadget only: every call keeps
`fuel = maxReplies - depth`, so whenever the source would recurse
(`depth < maxReplies`) we have `fuel > 0` and the `fuel = 0` branch is
unreachable. -/
def processThread (getTweet : String → Option Tweet) (maxReplies : Nat)
    (fuel : Nat) (currentTweet : Tweet) (depth : Nat) (st : ThreadState) :
    ThreadState :=
  if maxReplies ≤ depth then st
  else if st.visited.contains currentTweet.id then st
  else
    let st' : ThreadState :=
      ⟨currentTweet.id :: st.visited, currentTweet :: st.thread, st.fetches⟩
    match currentTweet.inReplyToStatusId with
    | none => st'
    | some parentId =>
      let st2 : ThreadState := ⟨st'.visited, st'.thread, st'.fetches + 1⟩
      match getTweet parentId with
      | none => st2
      | some parent =>
        match fuel with
        | 0 => st2
        | fuel' + 1 => processThread getTweet maxReplies fuel' parent (depth + 1) st2

/-- `buildConversationThread(tweet, maxReplies)` as a whole: run `processThread`
from the leaf at depth 0 with empty `visited`/`thread`, keeping the full final
state (thread plus fetch count). -/
def threadResolution (getTweet : String → Option Tweet) (tweet : Tweet)
    (maxReplies : Nat) : ThreadState :=
  processThread getTweet maxReplies maxReplies tweet 0 ⟨[], [], 0⟩

/-- The return value of `buildConversationThread` (interactions file line 597):
the root-first thread.  The source's default for `maxReplies` is 10. -/
def buildConversationThread (getTweet : String → Option Tweet) (tweet : Tweet)
    (maxReplies : Nat := 10) : List Tweet :=
  (threadResolution getTweet tweet maxReplies).thread

/-- The spec-facing resolver `resolve(leaf, maxDepth)`, where `maxDepth` counts
parent hops (the spec stops when "maxDepth hops are exhausted" and allows
"at most maxDepth + 1 fetch attempts").  The code's `maxReplies` bounds the
depth counter, which counts processed nodes starting from the leaf at depth 0,
so a budget of `maxDepth` hops is `maxReplies = maxDepth + 1`. -/
def resolveThread (getTweet : String → Option Tweet) (leaf : Tweet)
    (maxDepth : Nat) : List Tweet :=
  buildConversationThread getTweet leaf (maxDepth + 1)

/-- Invariant tying the accumulator to the visited set: thread ids are unique
and every thread id has been marked visited. -/
def ThreadInv (st : ThreadState) : Prop :=
  (st.thread.map Tweet.id).Nodup ∧ ∀ t ∈ st.thread, t.id ∈ st.visited

/-- Root tweet of the A←B←C scenario. -/
def tweetA : Tweet :=
  { id := "A", username := "alice", name := "Alice", text := "post a",
    inReplyToStatusId := none, conversationId := "A" }

/-- Middle tweet of the A←B←C scenario: B replies to A. -/
def tweetB : Tweet :=
  { id := "B", username := "bob", name := "Bob", text := "post b",
    inReplyToStatusId := some "A", conversationId := "A" }

/-- Leaf tweet of the A←B←C scenario: C replies to B. -/
def tweetC : Tweet :=
  { id := "C", username := "carol", name := "Carol", text := "post c",
    inReplyToStatusId := some "B", conversationId := "A" }

/-- Fetch environment for the A←B←C scenario. -/
def getTweetChain : String → Option Tweet := fun i =>
  if i = "A" then some tweetA
  else if i = "B" then some tweetB
  else if i = "C" then some tweetC
  else none

/-! ### Response decision (client-twitter/src interactions, `handleTweet`) -/

/-- `text.toLowerCase()` (ASCII, which covers the literal `'stop'` search). -/
def lowerStr (s : String) : String := ⟨s.toList.map Char.toLower⟩

/-- Does `pat` occur at the head of `s`? -/
def charsMatchAt : List Char → List Char → Bool
  | _, [] => true
  | [], _ :: _ => false
  | c :: cs, p :: ps => c == p && charsMatchAt cs ps

/-- Does `pat` occur anywhere in `s`? -/
def charsContain : List Char → List Char → Bool
  | [], pat => pat.isEmpty
  | c :: rest, pat => charsMatchAt (c :: rest) pat || charsContain rest pat

/-- JavaScript `s.includes(pat)`. -/
def strIncludes (s pat : String) : Bool := charsContain s.toList pat.toList

/-- The `isInBotThread` check of `handleTweet` (interactions file lines
258-261): some element of `thread` has the agent's username and is either the
tweet's direct parent or the conversation root. -/
def isInBotThread (botUsername : String) (tweet : Tweet) (thread : List Tweet) :
    Prop :=
  ∃ t ∈ thread, t.username = botUsername ∧
    (some t.id = tweet.inReplyToStatusId ∨ t.id = tweet.conversationId)

instance (b : String) (tw : Tweet) (th : List Tweet) :
    Decidable (isInBotThread b tw th) := by
  unfold isInBotThread; infer_instance

/-- The ways `handleTweet` can resolve a tweet, in source order:
`skipStandalone` is the early `return` for the agent's own standalone tweet
(lines 264-269); `ignoreNoText` is the `return {action: "IGNORE"}` for a tweet
without text (lines 276-279); `declined v` is the `return {action: v}` after
`generateShouldRespond` answered `v ≠ "RESPOND"` (lines 386-389); `respond
forced` means the handler went on to generate and send a reply, with `forced`
true when the external call was bypassed (line 375). -/
inductive HandleDecision
  | skipStandalone
  | ignoreNoText
  | declined (verdict : String)
  | respond (forced : Bool)
  deriving DecidableEq

/-- The decision skeleton of `TwitterInteractionClient.handleTweet`
(interactions file lines 248-405), with the external
`generateShouldRespond` collaborator abstracted as the `externalVerdict`
parameter and the content generation that follows a positive decision
abstracted away. -/
def handleTweetDecision (botUsername : String) (tweet : Tweet)
    (thread : List Tweet) (externalVerdict : String) : HandleDecision :=
  if tweet.username = botUsername ∧ tweet.inReplyToStatusId = none ∧
      thread.length = 1 then
    HandleDecision.skipStandalone
  else if tweet.text = "" then
    HandleDecision.ignoreNoText
  else if isInBotThread botUsername tweet thread ∧
      strIncludes (lowerStr tweet.text) "stop" = false then
    HandleDecision.respond true
  else if externalVerdict = "RESPOND" then
    HandleDecision.respond false
  else
    HandleDecision.declined externalVerdict

/-- Whether a decision consulted the external judgment collaborator. -/
def consultedExternal : HandleDecision → Bool
  | HandleDecision.skipStandalone => false
  | HandleDecision.ignoreNoText => false
  | HandleDecision.declined _ => true
  | HandleDecision.respond forced => !forced

/-- A parent tweet authored by the agent, used in the C4 scenarios. -/
def botParentTweet : Tweet :=
  { id := "P", username := "agent", name := "Agent", text := "my thread",
    inReplyToStatusId := none, conversationId := "P" }

/-- A reply to `botParentTweet` whose body text is empty. -/
def emptyTextReply : Tweet :=
  { id := "T", username := "human", name := "Human", text := "",
    inReplyToStatusId := some "P", conversationId := "P" }

/-- A reply to `botParentTweet` with ordinary body text (no stop keyword). -/
def plainReply : Tweet :=
  { id := "R", username := "human", name := "Human", text := "nice thread",
    inReplyToStatusId := some "P", conversationId := "P" }

/-- The agent's own standalone tweet (no parent), used in the C5 witness. -/
def botStandaloneTweet : Tweet :=
  { id := "S", username := "agent", name := "Agent", text := "hello world",
    inReplyToStatusId := none, conversationId := "S" }

/-- Conversation root authored by a third party, for the middle-ancestor
scenario R←M←P2←T. -/
def rootByOther : Tweet :=
  { id := "R", username := "dana", name := "Dana", text := "root post",
    inReplyToStatusId := none, conversationId := "R" }

/-- The agent's reply to `rootByOther`: a middle ancestor of the leaf below —
an ancestor that is neither the leaf's direct parent nor the conversation
root. -/
def botMiddleTweet : Tweet :=
  { id := "M", username := "agent", name := "Agent", text := "agent reply",
    inReplyToStatusId := some "R", conversationId := "R" }

/-- A human reply to `botMiddleTweet`, the leaf's direct parent. -/
def humanBetween : Tweet :=
  { id := "P2", username := "erin", name := "Erin", text := "human reply",
    inReplyToStatusId := some "M", conversationId := "R" }

/-- The leaf of the middle-ancestor scenario: replies to `humanBetween`, so
the agent-authored `botMiddleTweet` is a strict ancestor two hops up. -/
def leafReply : Tweet :=
  { id := "T2", username := "frank", name := "Frank", text := "interesting take",
    inReplyToStatusId := some "P2", conversationId := "R" }

/-- The resolved thread of the middle-ancestor scenario, root-first. -/
def middleAncestorThread : List Tweet :=
  [rootByOther, botMiddleTweet, humanBetween, leafReply]

/-! ### Post client (client-twitter/src/post.ts) -/

/-- `MAX_TWEET_LENGTH` (post.ts line 84). -/
def MAX_TWEET_LENGTH : Nat := 240

/-- JavaScript `text.slice(0, e)`: a negative `e` counts from the end of the
string (`max (len + e) 0`), and an `e` past the end is clamped by `take`. -/
def jsSlice0 (s : String) (e : Int) : String :=
  if 0 ≤ e then ⟨s.toList.take e.toNat⟩
  else ⟨s.toList.take (s.length - (-e).toNat)⟩

/-- Last index `≤ bound` at which `ch` occurs, if any. -/
def lastIndexOfAux : List Char → Char → Nat → Option Nat
  | [], _, _ => none
  | c :: cs, ch, bound =>
    let rest :=
      if bound = 0 then none
      else (lastIndexOfAux cs ch (bound - 1)).map (· + 1)
    match rest with
    | some j => some j
    | none => if c = ch then some 0 else none

/-- JavaScript `text.lastIndexOf(ch, fromIndex)`: the largest index
`≤ fromIndex` holding `ch`, or `-1` when there is none. -/
def jsLastIndexOf (s : String) (ch : Char) (fromIndex : Nat) : Int :=
  match lastIndexOfAux s.toList ch fromIndex with
  | some i => (i : Int)
  | none => -1

/-- JavaScript `s.trim()`: strip whitespace from both ends. -/
def jsTrim (s : String) : String :=
  ⟨((s.toList.dropWhile Char.isWhitespace).reverse.dropWhile
      Char.isWhitespace).reverse⟩

/-- `truncateToCompleteSentence` (post.ts lines 86-108; an identical copy with
a doc comment promising the result fits the limit sits in the unnamed post
client file, lines 57-84).  Source shape: text within `MAX_TWEET_LENGTH` is
returned unchanged; otherwise try `slice(0, lastIndexOf('.', 240) + 1)`, then
`slice(0, lastIndexOf(' ', 240))` with `'...'` appended, then the hard cut
`slice(0, 237)` with `'...'`. -/
def truncateToCompleteSentence (text : String) : String :=
  if text.length ≤ MAX_TWEET_LENGTH then text
  else
    let truncatedAtPeriod :=
      jsSlice0 text (jsLastIndexOf text '.' MAX_TWEET_LENGTH + 1)
    if 0 < (jsTrim truncatedAtPeriod).length then jsTrim truncatedAtPeriod
    else
      let truncatedAtSpace :=
        jsSlice0 text (jsLastIndexOf text ' ' MAX_TWEET_LENGTH)
      if 0 < (jsTrim truncatedAtSpace).length then
        jsTrim truncatedAtSpace ++ "..."
      else
        jsTrim (jsSlice0 text ((MAX_TWEET_LENGTH : Int) - 3)) ++ "..."

/-- `MIN_PROCESS_INTERVAL` of `TwitterPostClient` (post.ts line 118):
15 minutes in milliseconds. -/
def MIN_PROCESS_INTERVAL : Int := 15 * 60 * 1000

/-- The fields of `TwitterPostClient` touched by the timeline loop. -/
structure PostClientState where
  lastProcessTime : Int
  isProcessing : Bool
  deriving DecidableEq

/-- Net effect of one awaited `processTweetActions()` call (post.ts lines
403-559) on the client state: a re-entrant call returns untouched; otherwise
`isProcessing` is raised, `lastProcessTime` is set to the current time, and
the `finally` lowers `isProcessing` again before the caller resumes. -/
def processTweetActions (s : PostClientState) (now : Int) : PostClientState :=
  if s.isProcessing then s
  else { lastProcessTime := now, isProcessing := false }

/-- `Math.floor(Math.random() * (30 - 15 + 1)) + 15` (post.ts line 394): the
timeline re-arm delay in minutes, from a uniform draw `r ∈ [0, 1)`. -/
def randomTimelineMinutes (r : ℚ) : Int :=
  Int.floor (r * (30 - 15 + 1)) + 15

/-- `Math.floor(Math.random() * (maxMinutes - minMinutes + 1)) + minMinutes`
with the 25/35 bounds of `generateNewTweetLoop` (post.ts lines 135-139). -/
def randomTweetMinutes (r : ℚ) : Int :=
  Int.floor (r * (35 - 25 + 1)) + 25

/-- One invocation of `generateNewTimelineTweetLoop` (post.ts lines 374-401).
Result: the client state afterwards, whether `processTweetActions` was
invoked, and the delay in minutes of the re-armed timer (`none` when no
`setTimeout` was issued).

Source shape: when `now - lastProcessTime < MIN_PROCESS_INTERVAL` the function
returns at line 383, before the `try`/`finally` — so nothing is scheduled on
that path.  Otherwise the body runs (errors are caught) and the `finally`
always re-arms the timer with a random 15-30 minute delay. -/
def generateNewTimelineTweetLoop (s : PostClientState) (now : Int) (r : ℚ) :
    PostClientState × Bool × Option Int :=
  if now - s.lastProcessTime < MIN_PROCESS_INTERVAL then
    (s, false, none)
  else
    (processTweetActions s now, true, some (randomTimelineMinutes r))

/-! ### Helper lemmas -/

/-- Accepting a tweet preserves the thread invariant: the freshly checked id is
not yet visited, so prepending it keeps the ids unique, whatever the fetch
counter is set to. -/
theorem threadStep_inv (st : ThreadState) (t : Tweet) (f : Nat)
    (hvis : ¬st.visited.contains t.id = true) (hinv : ThreadInv st) :
    ThreadInv ⟨t.id :: st.visited, t :: st.thread, f⟩ := by
  obtain ⟨hnd, hsub⟩ := hinv
  have hnotv : t.id ∉ st.visited := by simpa using hvis
  refine ⟨?_, ?_⟩
  · refine List.nodup_cons.mpr ⟨?_, hnd⟩
    intro hmem
    obtain ⟨u, hu, hid⟩ := List.mem_map.mp hmem
    exact hnotv (hid ▸ hsub u hu)
  · intro u hu
    rcases List.mem_cons.mp hu with h | h
    · subst h; exact List.mem_cons_self _ _
    · exact List.mem_cons_of_mem _ (hsub u h)

/-- Each level of `processThread` performs at most one parent fetch and only
recurses while `depth < maxReplies`, so the fetch counter grows by at most
`maxReplies - depth`. -/
theorem processThread_fetches_le (g : String → Option Tweet) (m : Nat) :
    ∀ (fuel : Nat) (t : Tweet) (d : Nat) (st : ThreadState),
      (processThread g m fuel t d st).fetches ≤ st.fetches + (m - d) := by
  intro fuel
  induction fuel with
  | zero =>
    intro t d st
    unfold processThread
    split_ifs with h1 h2
    · simp
    · simp
    · cases hrep : t.inReplyToStatusId with
      | none => simp [hrep]
      | some pid =>
        cases hg : g pid with
        | none => simp [hrep, hg]; omega
        | some parent => simp [hrep, hg]; omega
  | succ fuel ih =>
    intro t d st
    unfold processThread
    split_ifs with h1 h2
    · simp
    · simp
    · cases hrep : t.inReplyToStatusId with
      | none => simp [hrep]
      | some pid =>
        cases hg : g pid with
        | none => simp [hrep, hg]; omega
        | some parent =>
          have := ih parent (d + 1)
            ⟨t.id :: st.visited, t :: st.thread, st.fetches + 1⟩
          simp [hrep, hg] at this ⊢
          omega

/-- `processThread` preserves the thread invariant, for any fuel, depth and
fetch environment. -/
theorem processThread_inv (g : String → Option Tweet) (m : Nat) :
    ∀ (fuel : Nat) (t : Tweet) (d : Nat) (st : ThreadState),
      ThreadInv st → ThreadInv (processThread g m fuel t d st) := by
  intro fuel
  induction fuel with
  | zero =>
    intro t d st hinv
    unfold processThread
    split_ifs with h1 h2
    · exact hinv
    · exact hinv
    · cases hrep : t.inReplyToStatusId with
      | none => simp [hrep]; exact threadStep_inv st t _ h2 hinv
      | some pid =>
        cases hg : g pid with
        | none => simp [hrep, hg]; exact threadStep_inv st t _ h2 hinv
        | some parent => simp [hrep, hg]; exact threadStep_inv st t _ h2 hinv
  | succ fuel ih =>
    intro t d st hinv
    unfold processThread
    split_ifs with h1 h2
    · exact hinv
    · exact hinv
    · cases hrep : t.inReplyToStatusId with
      | none => simp [hrep]; exact threadStep_inv st t _ h2 hinv
      | some pid =>
        cases hg : g pid with
        | none => simp [hrep, hg]; exact threadStep_inv st t _ h2 hinv
        | some parent =>
          simp [hrep, hg]
          exact ih parent (d + 1) _ (threadStep_inv st t _ h2 hinv)

/-! ### Claim theorems -/

/-- C1: re-delivering an update whose key is already in the in-flight set
makes `processTokenUpdate` return immediately: the in-flight set is unchanged
and no handler body runs (the result is `alreadyProcessing`, not a
`completedEvent`/`errorEvent`), whatever the handler would have done.  Hence a
second delivery for a key whose first delivery is still in flight never runs a
second handler body. -/
theorem processTokenUpdate_inflight_redelivery_noop (s : List String)
    (u : TokenUpdate) (o : HandlerOutcome) (k : String)
    (hid : u.record.bind TokenRecord.token_id = some k) (hin : k ∈ s) :
    processTokenUpdate s u o = (s, ProcessResult.alreadyProcessing) := by
  unfold processTokenUpdate
  rw [hid]
  simp [hin]

/-- Witness for C1 at a concrete in-flight set and update. -/
theorem processTokenUpdate_inflight_redelivery_noop_witness :
    processTokenUpdate ["t1"] sampleUpdate HandlerOutcome.success =
      (["t1"], ProcessResult.alreadyProcessing) :=
  processTokenUpdate_inflight_redelivery_noop ["t1"] sampleUpdate
    HandlerOutcome.success "t1" rfl (by decide)

/-- C9: once a key is admitted (it was not in flight), the entry added at the
start of the handler is removed again by the `finally`, on the success path
and on every failure path alike: the in-flight set after the call equals the
set before it, so no entry leaks. -/
theorem processTokenUpdate_releases_guard (s : List String) (u : TokenUpdate)
    (o : HandlerOutcome) (k : String)
    (hid : u.record.bind TokenRecord.token_id = some k) (hfree : k ∉ s) :
    (processTokenUpdate s u o).1 = s ∧ k ∉ (processTokenUpdate s u o).1 := by
  unfold processTokenUpdate
  rw [hid]
  simp [hfree, List.erase_cons_head]

/-- Witness for C9: a fresh key is admitted, the handler fails while parsing
the LLM response, and the guard entry is still gone afterwards. -/
theorem processTokenUpdate_releases_guard_witness :
    (processTokenUpdate [] sampleUpdate HandlerOutcome.jsonParseError).1 = [] ∧
    "t1" ∉ (processTokenUpdate [] sampleUpdate HandlerOutcome.jsonParseError).1 :=
  processTokenUpdate_releases_guard [] sampleUpdate HandlerOutcome.jsonParseError
    "t1" rfl (by decide)

/-- C6: the `onmessage` handler forwards a `tokenUpdate` downstream only for a
frame whose change type is `"UPDATE"` and whose record has
`processing_stage = "completed"`; contrapositively, an event whose record's
stage is not `"completed"` is never forwarded. -/
theorem onMessage_forwards_only_completed_updates (msg : WsMessage)
    (u : TokenUpdate) (h : onMessage msg = some u) :
    msg.event = "postgres_changes" ∧
    ∃ change r, msg.payload_data = some change ∧ change.record = some r ∧
      change.type = "UPDATE" ∧ r.processing_stage = some "completed" ∧
      u.record = some r := by
  obtain ⟨ev, pd⟩ := msg
  cases pd with
  | none =>
    unfold onMessage at h
    split_ifs at h
  | some change =>
    obtain ⟨ty, tb, sc, rec, old, ts⟩ := change
    cases rec with
    | none =>
      unfold onMessage at h
      split_ifs at h
    | some r =>
      unfold onMessage at h
      split_ifs at h with h1
      dsimp only at h
      split_ifs at h with h2
      exact ⟨h1, _, r, rfl, rfl, h2.1, h2.2, by cases h; rfl⟩

/-- Witness for C6 at a concrete completed-update frame. -/
theorem onMessage_forwards_only_completed_updates_witness :
    sampleCompletedMsg.event = "postgres_changes" ∧
    ∃ change r, sampleCompletedMsg.payload_data = some change ∧
      change.record = some r ∧ change.type = "UPDATE" ∧
      r.processing_stage = some "completed" ∧ sampleUpdate.record = some r :=
  onMessage_forwards_only_completed_updates sampleCompletedMsg sampleUpdate
    (by decide)

/-- C5: a post authored by the agent itself, with no parent and a
single-element resolved thread, is skipped by the early return at the top of
`handleTweet` — engagement is declined and the external judgment collaborator
is never consulted, whatever it would have answered. -/
theorem handleTweet_standalone_self_skip (bot ext : String) (tweet : Tweet)
    (thread : List Tweet) (hu : tweet.username = bot)
    (hp : tweet.inReplyToStatusId = none) (hl : thread.length = 1) :
    handleTweetDecision bot tweet thread ext = HandleDecision.skipStandalone ∧
    consultedExternal (handleTweetDecision bot tweet thread ext) = false := by
  unfold handleTweetDecision
  rw [if_pos ⟨hu, hp, hl⟩]
  exact ⟨rfl, rfl⟩

/-- Witness for C5: the agent's own standalone tweet is skipped even when the
external collaborator would have said RESPOND. -/
theorem handleTweet_standalone_self_skip_witness :
    handleTweetDecision "agent" botStandaloneTweet [botStandaloneTweet]
        "RESPOND" = HandleDecision.skipStandalone ∧
    consultedExternal (handleTweetDecision "agent" botStandaloneTweet
        [botStandaloneTweet] "RESPOND") = false :=
  handleTweet_standalone_self_skip "agent" "RESPOND" botStandaloneTweet
    [botStandaloneTweet] rfl rfl rfl

/-- C4 counterexample: the claim fails as stated, at two concrete inputs.

First input: `emptyTextReply` is a reply whose direct parent
(`botParentTweet`, an ancestor in the thread) was authored by the owner handle
`"agent"`, and its body text (the empty string) does not contain the stop
keyword; yet `handleTweet` resolves it to `ignoreNoText` (the
`return {action: "IGNORE"}` for textless tweets at lines 276-279 fires before
the forced-respond check), not to a forced RESPOND.

Second input: in the chain R←M←P2←T, the agent-authored `botMiddleTweet` is a
strict ancestor of the leaf (two parent hops up, as the recorded
`inReplyToStatusId` links show) and the leaf's nonempty body text has no stop
keyword; yet the `isInBotThread` test at lines 258-261 only recognizes the
direct parent and the conversation root, so the decision falls through to the
external collaborator (here answering IGNORE) instead of a forced RESPOND —
the external call is consulted, not bypassed. -/
theorem handleTweet_ownedThread_claim_cex :
    (botParentTweet ∈ [botParentTweet, emptyTextReply] ∧
     botParentTweet.username = "agent" ∧
     some botParentTweet.id = emptyTextReply.inReplyToStatusId ∧
     strIncludes (lowerStr emptyTextReply.text) "stop" = false ∧
     handleTweetDecision "agent" emptyTextReply [botParentTweet, emptyTextReply]
         "IGNORE" = HandleDecision.ignoreNoText ∧
     HandleDecision.ignoreNoText ≠ HandleDecision.respond true ∧
     HandleDecision.ignoreNoText ≠ HandleDecision.respond false) ∧
    (botMiddleTweet ∈ middleAncestorThread ∧
     botMiddleTweet.username = "agent" ∧
     leafReply.inReplyToStatusId = some humanBetween.id ∧
     humanBetween.inReplyToStatusId = some botMiddleTweet.id ∧
     leafReply.text ≠ "" ∧
     strIncludes (lowerStr leafReply.text) "stop" = false ∧
     handleTweetDecision "agent" leafReply middleAncestorThread "IGNORE" =
       HandleDecision.declined "IGNORE" ∧
     consultedExternal (handleTweetDecision "agent" leafReply
       middleAncestorThread "IGNORE") = true) := by decide

/-- C4 amended: for a post with nonempty body text whose thread contains an
element other than the post itself, authored by the owner handle, that is the
post's direct parent or the conversation root (the ancestors the code's
`isInBotThread` test recognizes; a bot-authored middle ancestor does not
trigger the rule), the decision is a forced RESPOND bypassing the external
collaborator when the lower-cased body text does not contain "stop", and is
deferred to the external collaborator when it does.  The hypotheses that the
matching element differs from the post and that the post sits in its own
thread transcribe the claim's premise that the element is an ancestor inside
the post's resolved thread. -/
theorem handleTweet_ownedThread_respond (bot ext : String) (tweet t : Tweet)
    (thread : List Tweet) (hleaf : tweet ∈ thread) (hmem : t ∈ thread)
    (hne : t ≠ tweet) (hauth : t.username = bot)
    (hanc : some t.id = tweet.inReplyToStatusId ∨ t.id = tweet.conversationId)
    (htext : tweet.text ≠ "") :
    (strIncludes (lowerStr tweet.text) "stop" = false →
      handleTweetDecision bot tweet thread ext = HandleDecision.respond true) ∧
    (strIncludes (lowerStr tweet.text) "stop" = true →
      handleTweetDecision bot tweet thread ext =
        (if ext = "RESPOND" then HandleDecision.respond false
         else HandleDecision.declined ext) ∧
      consultedExternal (handleTweetDecision bot tweet thread ext) = true) := by
  have hbt : isInBotThread bot tweet thread := ⟨t, hmem, hauth, hanc⟩
  have hns : ¬(tweet.username = bot ∧ tweet.inReplyToStatusId = none ∧
      thread.length = 1) := by
    rintro ⟨-, -, hlen⟩
    obtain ⟨a, ha⟩ := List.length_eq_one.mp hlen
    subst ha
    rw [List.mem_singleton] at hleaf hmem
    exact hne (hmem.trans hleaf.symm)
  constructor
  · intro hstop
    unfold handleTweetDecision
    rw [if_neg hns, if_neg htext, if_pos ⟨hbt, hstop⟩]
  · intro hstop
    have hno : ¬(isInBotThread bot tweet thread ∧
        strIncludes (lowerStr tweet.text) "stop" = false) := by
      rintro ⟨-, hf⟩
      rw [hstop] at hf
      exact Bool.noConfusion hf
    unfold handleTweetDecision
    rw [if_neg hns, if_neg htext, if_neg hno]
    constructor
    · rfl
    · split_ifs <;> rfl

/-- Witness for C4 amended: a human reply inside the agent's thread, with
ordinary text, is force-responded even though the external collaborator said
IGNORE. -/
theorem handleTweet_ownedThread_respond_witness :
    handleTweetDecision "agent" plainReply [botParentTweet, plainReply]
      "IGNORE" = HandleDecision.respond true :=
  (handleTweet_ownedThread_respond "agent" "IGNORE" plainReply botParentTweet
      [botParentTweet, plainReply] (by decide) (by decide) (by decide) rfl
      (Or.inl rfl) (by decide)).1 (by decide)

/-- C8 counterexample: the heartbeat callback does not treat a send failure as
a connection error.  On a connected state with the socket open, the tick with
the send failing leaves the client state untouched: `isConnected` stays true
and no reconnect gets scheduled, so no transition to DISCONNECTED is forced
(only the socket's own close event, `onClose`, performs that transition). -/
theorem heartbeat_send_failure_keeps_connection :
    heartbeatTick connectedState true = (connectedState, true) ∧
    (heartbeatTick connectedState true).1.isConnected = true ∧
    (heartbeatTick connectedState true).1.reconnectDelayMs = none := by decide

/-- C8 amended: while connected a `{type: "heartbeat"}` send is attempted on
every 30000 ms interval tick exactly when the socket's ready state is OPEN,
but the callback never changes the client state — in particular a send failure
does not force DISCONNECTED; the transition to DISCONNECTED (with the flat
5000 ms reconnect) happens only in the close handler. -/
theorem heartbeat_period_and_close_transition :
    HEARTBEAT_INTERVAL_MS = 30000 ∧
    (∀ (s : RtClientState) (f : Bool),
      (heartbeatTick s f).1 = s ∧
      ((heartbeatTick s f).2 = true ↔ s.readyState = some WsReady.wsOpen)) ∧
    (∀ s : RtClientState, (onClose s).isConnected = false ∧
      (onClose s).reconnectDelayMs = some RECONNECT_DELAY_MS) := by
  refine ⟨rfl, ?_, fun s => ⟨rfl, rfl⟩⟩
  intro s f
  unfold heartbeatTick
  split_ifs with h
  · simpa using h
  · simpa using h

/-- C7 counterexample: a skipped run of the timeline loop is not re-armed.
At a state whose cooldown has not elapsed (one minute after the last process,
against the 15-minute minimum) the function returns before the
`try`/`finally`, so no `setTimeout` is issued: the third component is `none`
and the loop is dead until something else re-arms it. -/
theorem timelineLoop_skipped_run_not_rearmed :
    (60000 : Int) - (0 : Int) < MIN_PROCESS_INTERVAL ∧
    generateNewTimelineTweetLoop ⟨0, false⟩ 60000 0 =
      (⟨0, false⟩, false, none) := by decide

/-- C7 amended: a run that passes the cooldown check is always re-armed by the
`finally` with a uniformly drawn 15-30 minute delay (and the tweet loop's
re-arm delay likewise falls in its 25-35 minute window), but a run skipped by
the cooldown check returns without scheduling any next iteration. -/
theorem timelineLoop_rearm_spec (s : PostClientState) (now : Int) (r : ℚ)
    (h0 : 0 ≤ r) (h1 : r < 1) :
    (now - s.lastProcessTime < MIN_PROCESS_INTERVAL →
      generateNewTimelineTweetLoop s now r = (s, false, none)) ∧
    (MIN_PROCESS_INTERVAL ≤ now - s.lastProcessTime →
      generateNewTimelineTweetLoop s now r =
        (processTweetActions s now, true, some (randomTimelineMinutes r)) ∧
      15 ≤ randomTimelineMinutes r ∧ randomTimelineMinutes r ≤ 30) ∧
    (25 ≤ randomTweetMinutes r ∧ randomTweetMinutes r ≤ 35) := by
  have hb1 : (0 : Int) ≤ Int.floor (r * (30 - 15 + 1)) :=
    Int.floor_nonneg.mpr (by positivity)
  have hb2 : Int.floor (r * (30 - 15 + 1)) < 16 := by
    rw [Int.floor_lt]
    push_cast
    nlinarith
  have hb3 : (0 : Int) ≤ Int.floor (r * (35 - 25 + 1)) :=
    Int.floor_nonneg.mpr (by positivity)
  have hb4 : Int.floor (r * (35 - 25 + 1)) < 11 := by
    rw [Int.floor_lt]
    push_cast
    nlinarith
  refine ⟨?_, ?_, ?_⟩
  · intro hlt
    unfold generateNewTimelineTweetLoop
    rw [if_pos hlt]
  · intro hge
    have hnlt : ¬(now - s.lastProcessTime < MIN_PROCESS_INTERVAL) :=
      not_lt.mpr hge
    unfold generateNewTimelineTweetLoop
    rw [if_neg hnlt]
    refine ⟨rfl, ?_, ?_⟩
    · unfold randomTimelineMinutes
      omega
    · unfold randomTimelineMinutes
      omega
  · unfold randomTweetMinutes
    omega

/-- Witness for C7 amended: exactly at the cooldown boundary the loop runs and
re-arms with the random timeline delay. -/
theorem timelineLoop_rearm_spec_witness :
    generateNewTimelineTweetLoop ⟨0, false⟩ 900000 (1 / 2) =
      (processTweetActions ⟨0, false⟩ 900000, true,
        some (randomTimelineMinutes (1 / 2))) ∧
    15 ≤ randomTimelineMinutes (1 / 2) ∧ randomTimelineMinutes (1 / 2) ≤ 30 :=
  (timelineLoop_rearm_spec ⟨0, false⟩ 900000 (1 / 2) (by norm_num)
    (by norm_num)).2.1 (by decide)

/-- C2: thread resolution with a hop budget of `maxDepth` (the code runs
`buildConversationThread` with `maxReplies = maxDepth + 1` processed nodes)
is a total function of the fetch environment — it terminates for every leaf
and every environment, including cyclic reply graphs — performs at most
`maxDepth + 1` parent-fetch attempts, and returns a thread in which no post
id appears twice. -/
theorem resolveThread_fetch_bound_and_unique_ids
    (getTweet : String → Option Tweet) (leaf : Tweet) (maxDepth : Nat) :
    (threadResolution getTweet leaf (maxDepth + 1)).fetches ≤ maxDepth + 1 ∧
    ((resolveThread getTweet leaf maxDepth).map Tweet.id).Nodup := by
  constructor
  · have h := processThread_fetches_le getTweet (maxDepth + 1) (maxDepth + 1)
      leaf 0 ⟨[], [], 0⟩
    simpa using h
  · have h := processThread_inv getTweet (maxDepth + 1) (maxDepth + 1)
      leaf 0 ⟨[], [], 0⟩ ⟨by simp, by simp⟩
    exact h.1

/-- C3: for the reply chain A←B←C, resolving from leaf C with a hop budget of
5 yields the root-first thread [A, B, C], and resolving with a hop budget of 1
(one parent hop, `maxReplies = 2` processed nodes) yields [B, C]. -/
theorem resolveThread_chain_scenarios :
    resolveThread getTweetChain tweetC 5 = [tweetA, tweetB, tweetC] ∧
    resolveThread getTweetChain tweetC 1 = [tweetB, tweetC] := by decide

set_option maxRecDepth 8000 in
/-- C10: evaluation at the failing input.  For the 300-character input of
letters `a` (which exceeds `MAX_TWEET_LENGTH` and has neither a period nor a
space in range), `lastIndexOf(' ', 240)` is `-1`, so `slice(0, -1)` keeps all
but the last character and the function returns a 302-character string —
exceeding `MAX_TWEET_LENGTH` instead of truncating to it.  (A short input is
returned unchanged, as the claim also states.) -/
theorem truncateToCompleteSentence_exceeds_limit :
    (truncateToCompleteSentence ⟨List.replicate 300 'a'⟩).length = 302 ∧
    MAX_TWEET_LENGTH < (truncateToCompleteSentence
      ⟨List.replicate 300 'a'⟩).length ∧
    truncateToCompleteSentence "short tweet" = "short tweet" := by decide

end Spec2Proof
